import Mathlib

/-!
Verification of the igvf-ng front-end data-fetching and grid layer.

This development shallowly embeds the request/response layer
(`src/lib/fetch-request.ts`), the sortable-grid rendering pipeline
(`src/components/sortable-grid.tsx`) and the session login effect
(`src/context/session.tsx`) of the igvf-ng repository, and proves the
specification claims about them.

Network effects are modelled by an explicit environment: a function from the
fetched URL to the outcome of that fetch (a parsed success body, an HTTP error
body, or a thrown network error).  All definitions are executable.
-/

namespace Igvf

/-- Modelled from the spec: the repository imports `ok`, `err`, `Result` and
`Ok` from `@/lib/result`, a module absent from the source snapshot.  The spec
describes it as a tagged success/error result type; `ok` holds a success value
and `err` an error value. -/
inductive Result (α ε : Type) where
  | ok (value : α)
  | err (error : ε)
deriving DecidableEq, Repr

namespace Result

/-- Tests whether a result is a success, as `result.isOk()` does. -/
def isOk {α ε : Type} : Result α ε → Bool
  | .ok _ => true
  | .err _ => false

/-- Tests whether a result is an error, as `result.isErr()` does. -/
def isErr {α ε : Type} : Result α ε → Bool
  | .ok _ => false
  | .err _ => true

/-- Maps the success value of a result, as `result.map(f)` does. -/
def map {α β ε : Type} (f : α → β) : Result α ε → Result β ε
  | .ok a => .ok (f a)
  | .err e => .err e

/-- Extracts the success value when present; used to model `Ok.all`, which
turns a list of results known to all be `ok` into the list of their values. -/
def toOption {α ε : Type} : Result α ε → Option α
  | .ok a => some a
  | .err _ => none

end Result

/-- Format of standard error responses (`ErrorObject` in fetch-request.ts).
The `@type` property is rendered as `atType` because `@` cannot start a Lean
identifier. -/
structure ErrorObject where
  isError : Bool
  atType : List String
  code : Nat
  description : String
  detail : String
  status : String
  title : String
deriving DecidableEq, Repr

/-- HttpStatusCode.SERVICE_UNAVAILABLE from fetch-request.ts. -/
def SERVICE_UNAVAILABLE : Nat := 503

/-- Standard returned response for a network error (NETWORK_ERROR_RESPONSE in
fetch-request.ts). -/
def NETWORK_ERROR_RESPONSE : ErrorObject :=
  { isError := true
    atType := ["NetworkError", "Error"]
    status := "error"
    code := SERVICE_UNAVAILABLE
    title := "Unknown error"
    description := "An unknown error occurred."
    detail := "An unknown error occurred." }

/-- Estimate of the maximum size of an `@id=path` query-string element
(MAX_PATH_QUERY_LENGTH_ESTIMATE in fetch-request.ts). -/
def MAX_PATH_QUERY_LENGTH_ESTIMATE : Int := 50

/-- One step of the `paths.reduce` callback inside
`FetchRequest.pathsIntoPathGroups`: if the last group still has room
(its length is below `maxGroupSize`), push the path onto it, otherwise append
a new singleton group. -/
def pathsReduceStep (maxGroupSize : Int) (groups : List (List String))
    (path : String) : List (List String) :=
  let lastGroup := groups.getLast?.getD []
  if (lastGroup.length : Int) < maxGroupSize then
    groups.dropLast ++ [lastGroup ++ [path]]
  else
    groups ++ [[path]]

/-- FetchRequest.pathsIntoPathGroups from fetch-request.ts.  `MAX_URL_LENGTH`
comes from `@/lib/constants`, a module absent from the source snapshot, so it
is passed as a parameter (the spec only calls it "an estimated maximum URL
length").  `Math.floor` of the JavaScript division is `Int.fdiv`. -/
def pathsIntoPathGroups (MAX_URL_LENGTH : Int) (paths : List String)
    (adjustment : Int) : List (List String) :=
  let maxGroupSize := Int.fdiv (MAX_URL_LENGTH - adjustment)
    MAX_PATH_QUERY_LENGTH_ESTIMATE
  paths.foldl (pathsReduceStep maxGroupSize) [[]]

lemma pathsReduceStep_ne_nil (m : Int) (groups : List (List String))
    (path : String) : pathsReduceStep m groups path ≠ [] := by
  simp only [pathsReduceStep]
  split <;> simp

lemma pathsReduceStep_flatten (m : Int) (groups : List (List String))
    (path : String) (h : groups ≠ []) :
    (pathsReduceStep m groups path).flatten = groups.flatten ++ [path] := by
  simp only [pathsReduceStep]
  split
  · have hlast : groups.getLast?.getD [] = groups.getLast h := by
      rw [List.getLast?_eq_getLast groups h]
      rfl
    simp only [hlast]
    conv_rhs => rw [← List.dropLast_append_getLast h]
    simp
  · simp

lemma foldl_pathsReduceStep_flatten (m : Int) (paths : List String) :
    ∀ groups : List (List String), groups ≠ [] →
      (paths.foldl (pathsReduceStep m) groups) ≠ [] ∧
      (paths.foldl (pathsReduceStep m) groups).flatten
        = groups.flatten ++ paths := by
  induction paths with
  | nil => intro groups h; simpa using h
  | cons p rest ih =>
    intro groups h
    have hne := pathsReduceStep_ne_nil m groups p
    have hstep := pathsReduceStep_flatten m groups p h
    have := ih (pathsReduceStep m groups p) hne
    refine ⟨this.1, ?_⟩
    simp only [List.foldl_cons]
    rw [this.2, hstep]
    simp

lemma pathsReduceStep_bound (m : Int) (hm : 1 ≤ m)
    (groups : List (List String)) (path : String)
    (h : ∀ g ∈ groups, (g.length : Int) ≤ m) :
    ∀ g ∈ pathsReduceStep m groups path, (g.length : Int) ≤ m := by
  intro g hg
  simp only [pathsReduceStep] at hg
  by_cases hnil : groups = []
  · subst hnil
    split at hg <;> simp_all
  · have hlast : groups.getLast?.getD [] = groups.getLast hnil := by
      rw [List.getLast?_eq_getLast groups hnil]
      rfl
    split at hg
    · rename_i hlt
      rw [List.mem_append] at hg
      rcases hg with hg | hg
      · exact h g ((List.dropLast_sublist groups).subset hg)
      · simp only [List.mem_singleton] at hg
        subst hg
        rw [hlast] at hlt ⊢
        simp only [List.length_append, List.length_singleton]
        push_cast
        omega
    · rw [List.mem_append] at hg
      rcases hg with hg | hg
      · exact h g hg
      · simp only [List.mem_singleton] at hg
        subst hg
        simpa using hm

lemma foldl_pathsReduceStep_bound (m : Int) (hm : 1 ≤ m) (paths : List String) :
    ∀ groups : List (List String),
      (∀ g ∈ groups, (g.length : Int) ≤ m) →
      ∀ g ∈ paths.foldl (pathsReduceStep m) groups, (g.length : Int) ≤ m := by
  induction paths with
  | nil => intro groups hgs; simpa using hgs
  | cons p rest ih =>
    intro groups hgs
    simp only [List.foldl_cons]
    exact ih _ (pathsReduceStep_bound m hm groups p hgs)

/-- C1: for every array of paths and non-negative adjustment,
`pathsIntoPathGroups` returns groups whose in-order concatenation equals the
input path array, and whenever
`maxGroupSize = floor((MAX_URL_LENGTH - adjustment) / MAX_PATH_QUERY_LENGTH_ESTIMATE)`
is at least 1, no returned group holds more than `maxGroupSize` paths. -/
theorem pathsIntoPathGroups_partition (MAX_URL_LENGTH adjustment : Int)
    (paths : List String) (hadj : 0 ≤ adjustment) :
    (pathsIntoPathGroups MAX_URL_LENGTH paths adjustment).flatten = paths ∧
    (1 ≤ Int.fdiv (MAX_URL_LENGTH - adjustment) MAX_PATH_QUERY_LENGTH_ESTIMATE →
      ∀ g ∈ pathsIntoPathGroups MAX_URL_LENGTH paths adjustment,
        (g.length : Int) ≤
          Int.fdiv (MAX_URL_LENGTH - adjustment)
            MAX_PATH_QUERY_LENGTH_ESTIMATE) := by
  constructor
  · have := foldl_pathsReduceStep_flatten
      (Int.fdiv (MAX_URL_LENGTH - adjustment) MAX_PATH_QUERY_LENGTH_ESTIMATE)
      paths [[]] (by simp)
    simpa [pathsIntoPathGroups] using this.2
  · intro hm g hg
    have hbase : ∀ g ∈ ([[]] : List (List String)), (g.length : Int) ≤
        Int.fdiv (MAX_URL_LENGTH - adjustment) MAX_PATH_QUERY_LENGTH_ESTIMATE := by
      intro g hg
      simp at hg
      subst hg
      simpa using le_trans (by omega) hm
    exact foldl_pathsReduceStep_bound _ hm paths [[]] hbase g
      (by simpa [pathsIntoPathGroups] using hg)

/-- C1 witness: concrete run with MAX_URL_LENGTH 120 and adjustment 0, so
maxGroupSize is 2 and three paths split into a group of two and a group of
one, concatenating back to the input. -/
theorem pathsIntoPathGroups_partition_witness :
    (0 : Int) ≤ 0 ∧
    (pathsIntoPathGroups 120 ["/a/", "/b/", "/c/"] 0).flatten
      = ["/a/", "/b/", "/c/"] ∧
    pathsIntoPathGroups 120 ["/a/", "/b/", "/c/"] 0
      = [["/a/", "/b/"], ["/c/"]] :=
  ⟨le_refl 0,
   (pathsIntoPathGroups_partition 120 0 ["/a/", "/b/", "/c/"] (le_refl 0)).1,
   by decide⟩

/-- Session object from the data provider; the code only reads its `_csrft_`
property (the CSRF token), rendered here as `csrft`. -/
structure SessionObject where
  csrft : String
deriving DecidableEq, Repr

/-- Arguments for a FetchRequest constructor (`FetchRequestInitializer`).
Optional properties are `Option`; an absent `backend` is falsy, so it is a
plain `Bool` defaulting to false. -/
structure FetchRequestInitializer where
  cookie : Option String := none
  session : Option SessionObject := none
  backend : Bool := false
deriving DecidableEq, Repr

/-- JavaScript truthiness of an optional string: `undefined` and the empty
string are falsy. -/
def jsTruthy (s : Option String) : Bool :=
  s.getD "" ≠ ""

/-- Private state a FetchRequest instance carries after construction: the
appended HTTP headers (name/value pairs) and the `backend` flag. -/
structure FetchRequestState where
  headers : List (String × String)
  backend : Bool
deriving DecidableEq, Repr

/-- FetchRequest constructor from fetch-request.ts.  `isServer` models
`typeof window === "undefined"`.  A thrown `Error` is modelled as
`Except.error` carrying the message. -/
def FetchRequest.make (isServer : Bool)
    (initializer : Option FetchRequestInitializer) :
    Except String FetchRequestState :=
  match initializer with
  | none => .ok { headers := [], backend := false }
  | some ini =>
    if jsTruthy ini.cookie ∧ ini.session.isSome then
      .error ("Must authenticate with either cookie (server-side requests) "
        ++ "or session (client-side requests) but not both")
    else if ¬ini.backend ∧ isServer ∧ ini.session.isSome then
      .error "Server-side requests requires a cookie, but a session was provided."
    else if ¬ini.backend ∧ ¬isServer ∧ jsTruthy ini.cookie then
      .error "Client-side requests requires a session, but a cookie was provided."
    else
      .ok
        { headers :=
            (if jsTruthy ini.cookie ∧ isServer then
              [("Cookie", ini.cookie.getD "")] else []) ++
            (match ini.session with
             | some s =>
               if ¬isServer ∧ ¬ini.backend then [("X-CSRF-Token", s.csrft)]
               else []
             | none => [])
          backend := ini.backend }

/-- Modelled from the spec: the URL constants imported from
`@/lib/constants`, a module absent from the source snapshot.  The spec only
says a base URL is selected "depending on whether code executes on the server
or the browser", so the three base URLs and the maximum URL length are carried
as parameters. -/
structure UrlConstants where
  SERVER_URL : String
  BACKEND_URL : String
  API_URL : String
  MAX_URL_LENGTH : Int
deriving DecidableEq, Repr

/-- FetchRequest.baseUrl getter: SERVER_URL when the backend flag is set,
otherwise BACKEND_URL on the server and API_URL in the browser. -/
def FetchRequest.baseUrl (u : UrlConstants) (st : FetchRequestState)
    (isServer : Bool) : String :=
  if st.backend then u.SERVER_URL
  else if isServer then u.BACKEND_URL
  else u.API_URL

/-- FetchRequest.pathUrl: the complete request URL for a path, appending the
`datastore=database` query for database requests. -/
def FetchRequest.pathUrl (u : UrlConstants) (st : FetchRequestState)
    (isServer : Bool) (path : String) (isDbRequest : Bool := false) :
    String :=
  let pathHasQuery := path.contains '?'
  let dbRequestQuery :=
    if isDbRequest then (if pathHasQuery then "&" else "?") ++ "datastore=database"
    else ""
  FetchRequest.baseUrl u st isServer ++ path ++ dbRequestQuery

/-- Error payload of an HTTP error response as parsed from `response.json()`,
before the code extends it with `isError: true`. -/
structure ErrorPayload where
  atType : List String
  code : Nat
  description : String
  detail : String
  status : String
  title : String
deriving DecidableEq, Repr

/-- Outcome of one `fetch()` call, keyed by the requested URL: a successful
response with its parsed JSON body, an HTTP error response with its parsed
JSON error payload, or a thrown network error. -/
inductive FetchOutcome (α : Type) where
  | success (body : α)
  | httpError (body : ErrorPayload)
  | networkThrow
deriving DecidableEq, Repr

/-- Spreading the server's error payload and setting `isError: true`, as
`{ ...(await response.json()), isError: true }` does. -/
def ErrorPayload.withIsError (b : ErrorPayload) : ErrorObject :=
  { isError := true
    atType := b.atType
    code := b.code
    description := b.description
    detail := b.detail
    status := b.status
    title := b.title }

/-- Outcome of one `fetch()` call for a text request: an HTTP response with
its ok-status flag and body text, or a thrown network error. -/
inductive TextFetchOutcome where
  | response (respOk : Bool) (body : String)
  | networkThrow
deriving DecidableEq, Repr

/-- Environment a FetchRequest instance runs in: the URL constants, the
constructed instance state, whether it executes on the server, the outcome of
each JSON fetch by URL, the outcome of each text fetch by URL, and the
`@graph` property access used by the bulk search (an unchecked cast in the
source). -/
structure FetchEnv (α : Type) where
  urls : UrlConstants
  state : FetchRequestState
  isServer : Bool
  fetch : String → FetchOutcome α
  fetchText : String → TextFetchOutcome
  graph : α → List α

/-- Request URL for a path in the given environment. -/
def FetchEnv.pathUrl {α : Type} (env : FetchEnv α) (path : String)
    (isDbRequest : Bool := false) : String :=
  FetchRequest.pathUrl env.urls env.state env.isServer path isDbRequest

/-- FetchRequest.getObject from fetch-request.ts: `ok` of the parsed body of
a successful response, `err` of the error payload extended with
`isError: true` for an HTTP error status, and `err NETWORK_ERROR_RESPONSE`
when the fetch throws. -/
def getObject {α : Type} (env : FetchEnv α) (path : String)
    (isDbRequest : Bool := false) : Result α ErrorObject :=
  match env.fetch (env.pathUrl path isDbRequest) with
  | .success body => .ok body
  | .httpError e => .err e.withIsError
  | .networkThrow => .err NETWORK_ERROR_RESPONSE

/-- C3: getObject returns `ok` of the parsed body exactly when the HTTP
response is successful; an HTTP error status yields `err` of the server's
payload extended with `isError: true`; a thrown fetch yields
`err NETWORK_ERROR_RESPONSE` (code 503, `@type` containing NetworkError and
Error); and these three outcomes are exhaustive. -/
theorem getObject_outcomes {α : Type} (env : FetchEnv α) (path : String)
    (isDbRequest : Bool) :
    (∀ body : α, env.fetch (env.pathUrl path isDbRequest) = .success body →
      getObject env path isDbRequest = .ok body) ∧
    (∀ e : ErrorPayload,
      env.fetch (env.pathUrl path isDbRequest) = .httpError e →
      getObject env path isDbRequest = .err e.withIsError ∧
      e.withIsError.isError = true) ∧
    (env.fetch (env.pathUrl path isDbRequest) = .networkThrow →
      getObject env path isDbRequest = .err NETWORK_ERROR_RESPONSE) ∧
    (NETWORK_ERROR_RESPONSE.code = 503 ∧
      "NetworkError" ∈ NETWORK_ERROR_RESPONSE.atType ∧
      "Error" ∈ NETWORK_ERROR_RESPONSE.atType) ∧
    ((getObject env path isDbRequest).isOk = true ↔
      ∃ body : α, env.fetch (env.pathUrl path isDbRequest) = .success body) ∧
    ((∃ body : α, env.fetch (env.pathUrl path isDbRequest) = .success body ∧
        getObject env path isDbRequest = .ok body) ∨
      (∃ e : ErrorPayload,
        env.fetch (env.pathUrl path isDbRequest) = .httpError e ∧
        getObject env path isDbRequest = .err e.withIsError) ∨
      (env.fetch (env.pathUrl path isDbRequest) = .networkThrow ∧
        getObject env path isDbRequest = .err NETWORK_ERROR_RESPONSE)) := by
  refine ⟨?_, ?_, ?_, ?_, ?_, ?_⟩
  · intro body h
    simp [getObject, h]
  · intro e h
    simp [getObject, h, ErrorPayload.withIsError]
  · intro h
    simp [getObject, h]
  · refine ⟨rfl, ?_, ?_⟩ <;> simp [NETWORK_ERROR_RESPONSE]
  · cases h : env.fetch (env.pathUrl path isDbRequest) <;>
      simp [getObject, h, Result.isOk]
  · cases h : env.fetch (env.pathUrl path isDbRequest)
    · exact Or.inl ⟨_, rfl, by simp [getObject, h]⟩
    · exact Or.inr (Or.inl ⟨_, rfl, by simp [getObject, h]⟩)
    · exact Or.inr (Or.inr ⟨rfl, by simp [getObject, h]⟩)

/-- Concrete environment used only to witness the fetch-layer theorems: a
browser-side unauthenticated instance over Nat bodies where `/ok/` succeeds
with body 7, `/bad/` yields an HTTP error payload, and every other URL throws
a network error. -/
def witnessEnv : FetchEnv Nat :=
  { urls :=
      { SERVER_URL := "http://server"
        BACKEND_URL := "http://backend"
        API_URL := "http://api"
        MAX_URL_LENGTH := 4000 }
    state := { headers := [], backend := false }
    isServer := false
    fetch := fun url =>
      if url = "http://api/ok/" then .success 7
      else if url = "http://api/bad/" then
        .httpError
          { atType := ["HTTPError", "Error"]
            code := 404
            description := "not found"
            detail := "not found"
            status := "error"
            title := "Not Found" }
      else .networkThrow
    fetchText := fun _ => .networkThrow
    graph := fun _ => [] }

/-- C3 witness: in the concrete witness environment, a successful fetch of
`/ok/` yields `ok 7` through getObject. -/
theorem getObject_outcomes_witness :
    getObject witnessEnv "/ok/" false = .ok 7 :=
  (getObject_outcomes witnessEnv "/ok/" false).1 7 (by
    simp [witnessEnv, FetchEnv.pathUrl, FetchRequest.pathUrl,
      FetchRequest.baseUrl])

/-- C6: construction and base-URL selection.  Whenever the constructor
succeeds: with the backend flag the base URL is SERVER_URL; otherwise on the
server the base URL is BACKEND_URL and a supplied cookie is forwarded in the
Cookie header, and in the browser the base URL is API_URL and a supplied
session's CSRF token is forwarded in the X-CSRF-Token header.  Constructing
with both a cookie and a session throws. -/
theorem fetchRequest_make_baseUrl (u : UrlConstants) (isServer : Bool)
    (ini : FetchRequestInitializer) :
    (∀ st : FetchRequestState,
      FetchRequest.make isServer (some ini) = .ok st →
      (ini.backend = true →
        FetchRequest.baseUrl u st isServer = u.SERVER_URL) ∧
      (ini.backend = false → isServer = true →
        FetchRequest.baseUrl u st isServer = u.BACKEND_URL ∧
        (∀ c : String, ini.cookie = some c → c ≠ "" →
          ("Cookie", c) ∈ st.headers)) ∧
      (ini.backend = false → isServer = false →
        FetchRequest.baseUrl u st isServer = u.API_URL ∧
        (∀ s : SessionObject, ini.session = some s →
          ("X-CSRF-Token", s.csrft) ∈ st.headers))) ∧
    (jsTruthy ini.cookie = true → ini.session.isSome = true →
      ∃ msg : String, FetchRequest.make isServer (some ini) = .error msg) := by
  constructor
  · intro st hst
    simp only [FetchRequest.make] at hst
    split at hst
    · exact absurd hst (by simp)
    split at hst
    · exact absurd hst (by simp)
    split at hst
    · exact absurd hst (by simp)
    simp only [Except.ok.injEq] at hst
    subst hst
    refine ⟨?_, ?_, ?_⟩
    · intro hb
      simp [FetchRequest.baseUrl, hb]
    · intro hb hsrv
      refine ⟨by simp [FetchRequest.baseUrl, hb, hsrv], ?_⟩
      intro c hc hcne
      simp [hb, hsrv, hc, jsTruthy, hcne]
    · intro hb hsrv
      refine ⟨by simp [FetchRequest.baseUrl, hb, hsrv], ?_⟩
      intro s hs
      simp [hb, hsrv, hs]
  · intro hc hs
    refine ⟨"Must authenticate with either cookie (server-side requests) "
      ++ "or session (client-side requests) but not both", ?_⟩
    simp only [FetchRequest.make]
    rw [if_pos ⟨hc, hs⟩]

/-- C6 witness: a browser-side construction with a session sets the
X-CSRF-Token header and selects API_URL, and constructing with both a cookie
and a session throws. -/
theorem fetchRequest_make_baseUrl_witness :
    (∃ st : FetchRequestState,
      FetchRequest.make false
        (some { session := some { csrft := "tok" } }) = .ok st ∧
      FetchRequest.baseUrl witnessEnv.urls st false = "http://api" ∧
      ("X-CSRF-Token", "tok") ∈ st.headers) ∧
    (∃ msg : String,
      FetchRequest.make true
        (some { cookie := some "c=1", session := some { csrft := "tok" } })
        = .error msg) := by
  constructor
  · refine ⟨{ headers := [("X-CSRF-Token", "tok")], backend := false }, ?_, ?_, ?_⟩
    · rfl
    · have h := (fetchRequest_make_baseUrl witnessEnv.urls false
        { session := some { csrft := "tok" } }).1
        { headers := [("X-CSRF-Token", "tok")], backend := false } rfl
      exact (h.2.2 rfl rfl).1
    · have h := (fetchRequest_make_baseUrl witnessEnv.urls false
        { session := some { csrft := "tok" } }).1
        { headers := [("X-CSRF-Token", "tok")], backend := false } rfl
      exact (h.2.2 rfl rfl).2 { csrft := "tok" } rfl
  · exact (fetchRequest_make_baseUrl witnessEnv.urls true
      { cookie := some "c=1", session := some { csrft := "tok" } }).2
      rfl rfl

/-- Value resolved by `getText`: the response's body text, an error object,
or the caller's `defaultErrorValue` (the TypeScript union
`string | ErrorObject | T`). -/
inductive GetTextResult (T : Type) where
  | text (s : String)
  | errorObject (e : ErrorObject)
  | defaultValue (t : T)
deriving DecidableEq, Repr

/-- Tests whether a `getText` outcome is an error object. -/
def GetTextResult.isErrorObject {T : Type} : GetTextResult T → Bool
  | .errorObject _ => true
  | _ => false

/-- FetchRequest.getText from fetch-request.ts.  On an HTTP response the code
returns `defaultErrorValue` only when the response is not ok AND a default
was given; in every other case it returns `response.text()` — including for
an HTTP error status with no default.  A thrown fetch returns
NETWORK_ERROR_RESPONSE without a default and the default with one. -/
def getText {α T : Type} (env : FetchEnv α) (path : String)
    (defaultErrorValue : Option T := none) : GetTextResult T :=
  match env.fetchText (env.pathUrl path) with
  | .response respOk body =>
    match defaultErrorValue with
    | some d => if !respOk then .defaultValue d else .text body
    | none => .text body
  | .networkThrow =>
    match defaultErrorValue with
    | some d => .defaultValue d
    | none => .errorObject NETWORK_ERROR_RESPONSE

/-- Environment used only for the getText evaluation: every text fetch
resolves to an HTTP error response (ok = false) whose body is an HTML error
page, and every JSON fetch throws. -/
def textErrorEnv : FetchEnv Nat :=
  { urls :=
      { SERVER_URL := "http://server"
        BACKEND_URL := "http://backend"
        API_URL := "http://api"
        MAX_URL_LENGTH := 4000 }
    state := { headers := [], backend := false }
    isServer := false
    fetch := fun _ => .networkThrow
    fetchText := fun _ => .response false "<html>Service unavailable</html>"
    graph := fun _ => [] }

/-- C7 evaluation at the failing input: for a path whose response carries an
HTTP error status, getText with a defaultErrorValue returns the default, and
getText without one returns the error response's body text — not an error
object.  Only a thrown network fetch without a default is converted into
NETWORK_ERROR_RESPONSE. -/
theorem getText_httpError_returns_body_text :
    getText textErrorEnv "/doc.txt" (some "fallback") = .defaultValue "fallback" ∧
    getText textErrorEnv "/doc.txt" (none : Option String)
      = .text "<html>Service unavailable</html>" ∧
    (getText textErrorEnv "/doc.txt" (none : Option String)).isErrorObject
      = false ∧
    getText witnessEnv "/doc.txt" (none : Option String)
      = .errorObject NETWORK_ERROR_RESPONSE ∧
    getText witnessEnv "/doc.txt" (some "fallback") = .defaultValue "fallback" := by
  refine ⟨rfl, rfl, rfl, rfl, rfl⟩

/-- FetchRequest.getMultipleObjects from fetch-request.ts: one getObject per
path (none when the path array is empty), and with `filterErrors` only the
ok results are kept. -/
def getMultipleObjects {α : Type} (env : FetchEnv α) (paths : List String)
    (filterErrors : Bool := false) : List (Result α ErrorObject) :=
  let results :=
    if paths.length > 0 then paths.map (fun path => getObject env path)
    else []
  if filterErrors then results.filter (fun result => result.isOk) else results

lemma getMultipleObjects_eq {α : Type} (env : FetchEnv α)
    (paths : List String) (filterErrors : Bool) :
    getMultipleObjects env paths filterErrors =
      if filterErrors then
        (paths.map (fun path => getObject env path)).filter
          (fun result => result.isOk)
      else paths.map (fun path => getObject env path) := by
  cases paths <;> simp [getMultipleObjects]

/-- C9: getMultipleObjects with filterErrors false returns one entry per
path, the i-th entry being the getObject result for the i-th path; an empty
path array yields an empty result (no request is issued); with filterErrors
true only the ok entries remain, in their original relative order. -/
theorem getMultipleObjects_spec {α : Type} (env : FetchEnv α)
    (paths : List String) :
    (getMultipleObjects env paths false).length = paths.length ∧
    (∀ i : Nat, i < paths.length →
      ∃ p : String, paths[i]? = some p ∧
        (getMultipleObjects env paths false)[i]? = some (getObject env p)) ∧
    (getMultipleObjects env ([] : List String) false = [] ∧
      getMultipleObjects env ([] : List String) true = []) ∧
    (getMultipleObjects env paths true).Sublist
      (getMultipleObjects env paths false) ∧
    (∀ r ∈ getMultipleObjects env paths true, r.isOk = true) ∧
    (∀ r ∈ getMultipleObjects env paths false, r.isOk = true →
      r ∈ getMultipleObjects env paths true) := by
  refine ⟨?_, ?_, ?_, ?_, ?_, ?_⟩
  · simp [getMultipleObjects_eq]
  · intro i hi
    refine ⟨paths[i], List.getElem?_eq_getElem hi, ?_⟩
    simp [getMultipleObjects_eq, List.getElem?_map,
      List.getElem?_eq_getElem hi]
  · simp [getMultipleObjects_eq]
  · simp only [getMultipleObjects_eq, if_pos, if_neg]
    exact List.filter_sublist _
  · intro r hr
    simp only [getMultipleObjects_eq, if_pos] at hr
    exact (List.mem_filter.mp hr).2
  · intro r hr hok
    simp only [getMultipleObjects_eq] at hr ⊢
    exact List.mem_filter.mpr ⟨hr, hok⟩

/-- C9 witness: with two concrete paths in the witness environment, the first
entry of the unfiltered result is the getObject result for the first path. -/
theorem getMultipleObjects_spec_witness :
    (0 : Nat) < (["/ok/", "/missing/"] : List String).length ∧
    (∃ p : String, (["/ok/", "/missing/"] : List String)[0]? = some p ∧
      (getMultipleObjects witnessEnv ["/ok/", "/missing/"] false)[0]?
        = some (getObject witnessEnv p)) :=
  ⟨by decide,
   (getMultipleObjects_spec witnessEnv ["/ok/", "/missing/"]).2.1 0 (by decide)⟩

/-- Models JavaScript `array.join(sep)`: the empty array joins to the empty
string, a singleton to its element, and otherwise elements are interleaved
with the separator. -/
def joinSep (sep : String) : List String → String
  | [] => ""
  | [x] => x
  | x :: y :: xs => x ++ sep ++ joinSep sep (y :: xs)

lemma joinSep_cons_cons (sep x y : String) (xs : List String) :
    joinSep sep (x :: y :: xs) = x ++ sep ++ joinSep sep (y :: xs) := rfl

lemma joinSep_head_data (sep x : String) (xs : List String) :
    ∃ rest : List Char, (joinSep sep (x :: xs)).data = x.data ++ rest := by
  cases xs with
  | nil => exact ⟨[], by simp [joinSep]⟩
  | cons y ys =>
    refine ⟨sep.data ++ (joinSep sep (y :: ys)).data, ?_⟩
    rw [joinSep_cons_cons]
    simp [String.data_append]

lemma mem_joinSep_data (sep s : String) :
    ∀ l : List String, s ∈ l → s.data <:+: (joinSep sep l).data := by
  intro l
  induction l with
  | nil => simp
  | cons x xs ih =>
    intro hs
    rcases List.mem_cons.mp hs with h | h
    · subst h
      obtain ⟨rest, hr⟩ := joinSep_head_data sep s xs
      rw [hr]
      exact List.IsPrefix.isInfix (List.prefix_append _ _)
    · cases xs with
      | nil => simp at h
      | cons y ys =>
        have hin := ih h
        rw [joinSep_cons_cons, String.data_append, String.data_append]
        exact List.IsInfix.trans hin (List.IsSuffix.isInfix (List.suffix_append _ _))

/-- Query string for the needed fields of each object,
one `field=` element per requested field, joined by ampersands. -/
def fieldQueryOf (fields : List String) : String :=
  joinSep "&" (fields.map (fun field => "field=" ++ field))

/-- Search URL for one group of paths, exactly as built inside
`getMultipleObjectsBulk`: the field query (followed by `&` when non-empty),
one `@id=` element per path of the group, and `limit=` the group size. -/
def searchUrlOfGroup (fields : List String) (group : List String) : String :=
  let fieldQuery := fieldQueryOf fields
  let pathQuery := joinSep "&" (group.map (fun path => "@id=" ++ path))
  let query := (if fieldQuery ≠ "" then fieldQuery ++ "&" else "") ++ pathQuery
  "/search/?" ++ query ++ "&limit=" ++ toString group.length

/-- FetchRequest.getMultipleObjectsBulk from fetch-request.ts: `ok []` for no
paths; otherwise one `/search/` getObject per path group, each mapped to its
`@graph` array; the first erroring group result is returned as-is, and with
no errors the per-group `@graph` arrays are flattened in group order
(`Ok.all(results).flat()`). -/
def getMultipleObjectsBulk {α : Type} (env : FetchEnv α)
    (paths fields : List String) : Result (List α) ErrorObject :=
  if paths.length = 0 then .ok []
  else
    let fieldQuery := fieldQueryOf fields
    let pathGroups := pathsIntoPathGroups env.urls.MAX_URL_LENGTH paths
      (fieldQuery.length : Int)
    let results := pathGroups.map (fun group =>
      (getObject env (searchUrlOfGroup fields group)).map env.graph)
    match results.find? (fun r => r.isErr) with
    | some e => e
    | none => .ok ((results.filterMap Result.toOption).flatten)

lemma filterMap_toOption_map_ok {β ε : Type} (l : List β) :
    (l.map (Result.ok : β → Result β ε)).filterMap Result.toOption = l := by
  induction l with
  | nil => rfl
  | cons x xs ih => simp [Result.toOption, ih]

lemma fieldQueryOf_ne_empty {fields : List String} {f : String}
    (hf : f ∈ fields) : fieldQueryOf fields ≠ "" := by
  cases fields with
  | nil => simp at hf
  | cons x xs =>
    obtain ⟨rest, hr⟩ := joinSep_head_data "&" ("field=" ++ x)
      (xs.map (fun field => "field=" ++ field))
    intro h
    have : (fieldQueryOf (x :: xs)).data = [] := by rw [h]
    rw [fieldQueryOf, List.map_cons, hr, String.data_append] at this
    simp at this

/-- C2: getMultipleObjectsBulk returns `ok []` for an empty path array; each
group's search URL contains `field=` for every requested field, `@id=` for
every path of the group, and ends with `limit=` the group's length; when some
group's result errs, the whole call returns the first erroring group's error
(never a partial array); when no group errs it returns `ok` of the
concatenation of the groups' `@graph` arrays in group order. -/
theorem getMultipleObjectsBulk_spec {α : Type} (env : FetchEnv α)
    (paths fields : List String) :
    (paths = [] → getMultipleObjectsBulk env paths fields = .ok []) ∧
    (∀ group ∈ pathsIntoPathGroups env.urls.MAX_URL_LENGTH paths
        ((fieldQueryOf fields).length : Int),
      (∀ f ∈ fields,
        ("field=" ++ f).data <:+: (searchUrlOfGroup fields group).data) ∧
      (∀ p ∈ group,
        ("@id=" ++ p).data <:+: (searchUrlOfGroup fields group).data) ∧
      ("&limit=" ++ toString group.length).data
        <:+ (searchUrlOfGroup fields group).data) ∧
    (paths ≠ [] → ∀ e : Result (List α) ErrorObject,
      ((pathsIntoPathGroups env.urls.MAX_URL_LENGTH paths
          ((fieldQueryOf fields).length : Int)).map (fun group =>
        (getObject env (searchUrlOfGroup fields group)).map env.graph)).find?
          (fun r => r.isErr) = some e →
      getMultipleObjectsBulk env paths fields = e ∧ e.isErr = true) ∧
    (paths ≠ [] → ∀ graphs : List (List α),
      (pathsIntoPathGroups env.urls.MAX_URL_LENGTH paths
          ((fieldQueryOf fields).length : Int)).map (fun group =>
        (getObject env (searchUrlOfGroup fields group)).map env.graph)
          = graphs.map Result.ok →
      getMultipleObjectsBulk env paths fields = .ok graphs.flatten) := by
  refine ⟨?_, ?_, ?_, ?_⟩
  · intro h
    subst h
    simp [getMultipleObjectsBulk]
  · intro group _hg
    refine ⟨?_, ?_, ?_⟩
    · intro f hf
      have h1 : ("field=" ++ f).data <:+: (fieldQueryOf fields).data :=
        mem_joinSep_data "&" _ _ (List.mem_map_of_mem _ hf)
      have hne := fieldQueryOf_ne_empty hf
      refine h1.trans ⟨"/search/?".data,
        "&".data ++ (joinSep "&" (group.map (fun path => "@id=" ++ path))).data
          ++ ("&limit=" ++ toString group.length).data, ?_⟩
      simp [searchUrlOfGroup, hne, String.data_append]
    · intro p hp
      have h1 : ("@id=" ++ p).data
          <:+: (joinSep "&" (group.map (fun path => "@id=" ++ path))).data :=
        mem_joinSep_data "&" _ _ (List.mem_map_of_mem _ hp)
      refine h1.trans ⟨("/search/?" ++
        (if fieldQueryOf fields ≠ "" then fieldQueryOf fields ++ "&"
          else "")).data,
        ("&limit=" ++ toString group.length).data, ?_⟩
      simp [searchUrlOfGroup, String.data_append]
    · refine ⟨("/search/?" ++
        ((if fieldQueryOf fields ≠ "" then fieldQueryOf fields ++ "&"
          else "") ++
          joinSep "&" (group.map (fun path => "@id=" ++ path)))).data, ?_⟩
      simp [searchUrlOfGroup, String.data_append]
  · intro hne e he
    have hlen : ¬paths.length = 0 := by
      simpa using hne
    constructor
    · simp only [getMultipleObjectsBulk, if_neg hlen]
      rw [he]
    · have := List.find?_some he
      simpa using this
  · intro hne graphs hall
    have hlen : ¬paths.length = 0 := by
      simpa using hne
    simp only [getMultipleObjectsBulk, if_neg hlen]
    rw [hall]
    have hnone : (graphs.map Result.ok).find?
        (fun r : Result (List α) ErrorObject => r.isErr) = none := by
      rw [List.find?_eq_none]
      intro x hx
      rcases List.mem_map.mp hx with ⟨g, _, rfl⟩
      simp [Result.isErr]
    rw [hnone]
    rw [filterMap_toOption_map_ok]

/-- C2 witness: an empty path array yields `ok []`, and for the single path
group of one concrete path with one requested field, the search URL contains
the field element. -/
theorem getMultipleObjectsBulk_spec_witness :
    getMultipleObjectsBulk witnessEnv ([] : List String) ["accession"]
      = .ok [] ∧
    (["/a/"] ∈ pathsIntoPathGroups witnessEnv.urls.MAX_URL_LENGTH ["/a/"]
      ((fieldQueryOf ["accession"]).length : Int) ∧
    ("field=" ++ "accession").data
      <:+: (searchUrlOfGroup ["accession"] ["/a/"]).data) := by
  have hmem : ["/a/"] ∈ pathsIntoPathGroups witnessEnv.urls.MAX_URL_LENGTH
      ["/a/"] ((fieldQueryOf ["accession"]).length : Int) := by decide
  refine ⟨(getMultipleObjectsBulk_spec witnessEnv [] ["accession"]).1 rfl,
    hmem, ?_⟩
  exact (((getMultipleObjectsBulk_spec witnessEnv ["/a/"]
    ["accession"]).2.1 ["/a/"] hmem).1 "accession" (by decide))

/-- JavaScript value stored in a database-object field: a string, a number,
or `undefined` for an absent property. -/
inductive JsValue where
  | str (s : String)
  | num (n : Int)
  | undefined
deriving DecidableEq, Repr

/-- DatabaseObject: a JSON record rendered in the grid, modelled as a lookup
from property name to value. -/
def DatabaseObject : Type := String → JsValue

/-- Sorting key produced for each row: the `string | number` returned by a
SorterFunction, or `undefined` when sorting on an absent raw field. -/
inductive SortKey where
  | str (s : String)
  | num (n : Int)
  | undefined
deriving DecidableEq, Repr

/-- Key comparison used by the lodash `_.orderBy` sort.  Same-kind keys
compare naturally and `undefined` sorts after every defined value, as lodash
does; keys of mixed kinds are treated as tied (lodash additionally coerces
numeric strings when compared against numbers, which is not modelled — no
claim settled here depends on the key order). -/
def SortKey.le : SortKey → SortKey → Bool
  | .num a, .num b => a ≤ b
  | .str a, .str b => a ≤ b
  | .num _, .str _ => true
  | .str _, .num _ => true
  | .undefined, .undefined => true
  | .undefined, .num _ => false
  | .undefined, .str _ => false
  | .num _, .undefined => true
  | .str _, .undefined => true

/-- Raw field value as a sorting key. -/
def JsValue.sortKey : JsValue → SortKey
  | .str s => .str s
  | .num n => .num n
  | .undefined => .undefined

/-- Sorting direction for a column in the grid ("asc" | "desc"). -/
inductive SortDirection where
  | asc
  | desc
deriving DecidableEq, Repr

/-- Models lodash `_.orderBy` with a single iteratee: a stable sort of the
data by the extracted key, ascending or descending. -/
def orderBy {β : Type} (data : List β) (iteratee : β → SortKey) :
    SortDirection → List β
  | .asc => data.mergeSort (fun a b => (iteratee a).le (iteratee b))
  | .desc => data.mergeSort (fun a b => (iteratee b).le (iteratee a))

/-- Configuration for a column in the sortable grid (`SortableGridColumn`).
The `title` and `display` React nodes play no role in any claim and are not
representable, so they are omitted.  The source also passes the full column
list to `hide(data, columns, meta)`; that argument cannot occur in its own
structure type (strict positivity) and no claim depends on it, so `hide`
takes only the data and metadata here. -/
structure SortableGridColumn (μ : Type) where
  id : String
  value : Option (DatabaseObject → String) := none
  sorter : Option (DatabaseObject → μ → SortKey) := none
  hide : Option (List DatabaseObject → μ → Bool) := none
  isSortable : Option Bool := none

/-- sortData from sortable-grid.tsx: sort by the sorted column's `sorter`
when present, else by the lowercased string of its `value` function when
present, else by the raw field named by the sort column (also when the sort
column matches no column configuration). -/
def sortData {μ : Type} (data : List DatabaseObject) (meta : μ)
    (columns : List (SortableGridColumn μ)) (sortBy : String)
    (sortDirections : SortDirection) : List DatabaseObject :=
  match columns.find? (fun column => column.id == sortBy) with
  | some sortedColumnConfig =>
    match sortedColumnConfig.sorter with
    | some sorter => orderBy data (fun item => sorter item meta) sortDirections
    | none =>
      match sortedColumnConfig.value with
      | some v =>
        orderBy data (fun item => SortKey.str ((v item).toLower)) sortDirections
      | none => orderBy data (fun item => (item sortBy).sortKey) sortDirections
  | none => orderBy data (fun item => (item sortBy).sortKey) sortDirections

/-- Default maximum number of items to display per page
(DEFAULT_MAX_ITEMS_PER_PAGE). -/
def DEFAULT_MAX_ITEMS_PER_PAGE : Nat := 10

/-- Configuration for the pager control (`PagerConfig`). -/
structure PagerConfig where
  currentPageIndex : Option Nat := none
  maxItemsPerPage : Option Nat := none
deriving DecidableEq, Repr

/-- Initial sorting configuration (`SortingConfig`); an absent
`isSortingSuppressed` is falsy. -/
structure SortingConfig where
  initialColumnId : Option String := none
  initialDirection : Option SortDirection := none
  isSortingSuppressed : Bool := false
deriving DecidableEq, Repr

/-- Effective maximum items per page:
`pagerConfig?.maxItemsPerPage || DEFAULT_MAX_ITEMS_PER_PAGE`, where the
JavaScript `||` also replaces an explicit 0 by the default. -/
def maxItemsPerPageOf (pagerConfig : PagerConfig) : Nat :=
  match pagerConfig.maxItemsPerPage with
  | some m => if m = 0 then DEFAULT_MAX_ITEMS_PER_PAGE else m
  | none => DEFAULT_MAX_ITEMS_PER_PAGE

/-- Models `array.slice(a, b)` for non-negative bounds. -/
def jsSlice {β : Type} (l : List β) (a b : Nat) : List β :=
  (l.take b).drop a

/-- One cell of a data-grid row: the column id and the source item.  The
rendered cell content is a React node and is not representable here. -/
structure DataGridCell where
  id : String
  source : DatabaseObject

/-- One data-grid row produced by convertObjectArrayToDataGrid. -/
structure DataGridRow where
  id : JsValue
  cells : List DataGridCell

/-- convertObjectArrayToDataGrid from sortable-grid.tsx: one row per item in
order, with the row id taken from `keyProp` when given, else the item's
index, and one cell per column carrying the item as its source. -/
def convertObjectArrayToDataGrid {μ : Type} (items : List DatabaseObject)
    (columns : List (SortableGridColumn μ)) (keyProp : String := "") :
    List DataGridRow :=
  items.enum.map (fun pair =>
    { id := if keyProp ≠ "" then pair.2 keyProp else .str (toString pair.1)
      cells := columns.map (fun column =>
        { id := column.id, source := pair.2 }) })

/-- Columns whose `hide()` returns false or that have no `hide()` at all. -/
def visibleColumnsOf {μ : Type} (data : List DatabaseObject)
    (columns : List (SortableGridColumn μ)) (meta : μ) :
    List (SortableGridColumn μ) :=
  columns.filter (fun column =>
    match column.hide with
    | none => true
    | some hideFn => ! hideFn data meta)

/-- React state of a mounted SortableGrid: the current sort column id, sort
direction, and internally managed page index. -/
structure SortableGridState where
  sortBy : String
  sortDirection : SortDirection
  pageIndex : Nat
deriving DecidableEq, Repr

/-- Result of one render pass of SortableGrid: the produced data-grid rows
and the sorted page they came from (`none` models rendering null), and the
argument of the `setSortBy` call when the pass resets the sort column. -/
structure RenderOutput where
  dataRows : Option (List DataGridRow)
  pagedData : Option (List DatabaseObject)
  nextSortBy : Option String

/-- One render pass of the SortableGrid component body: filter the visible
columns, bail out (resetting sortBy) when the current sort column is not
visible, otherwise sort — unless suppressed — then slice the current page
and convert it to data-grid rows. -/
def sortableGridRender {μ : Type} (data : List DatabaseObject)
    (columns : List (SortableGridColumn μ)) (keyProp : String)
    (pagerConfig : PagerConfig) (sortingConfig : SortingConfig) (meta : μ)
    (st : SortableGridState) : RenderOutput :=
  let visibleColumns := visibleColumnsOf data columns meta
  match visibleColumns.find? (fun column => column.id == st.sortBy) with
  | none =>
    { dataRows := none
      pagedData := none
      nextSortBy := visibleColumns.head?.map (fun column => column.id) }
  | some _ =>
    let sortedData :=
      if sortingConfig.isSortingSuppressed then data
      else sortData data meta visibleColumns st.sortBy st.sortDirection
    let pagedData := jsSlice sortedData
      ((pagerConfig.currentPageIndex.getD st.pageIndex) *
        maxItemsPerPageOf pagerConfig)
      (((pagerConfig.currentPageIndex.getD st.pageIndex) + 1) *
        maxItemsPerPageOf pagerConfig)
    { dataRows :=
        some (convertObjectArrayToDataGrid pagedData visibleColumns keyProp)
      pagedData := some pagedData
      nextSortBy := none }

lemma orderBy_perm {β : Type} (data : List β) (iteratee : β → SortKey)
    (dir : SortDirection) : (orderBy data iteratee dir).Perm data := by
  cases dir <;> exact List.mergeSort_perm _ _

/-- C8: sortData returns a permutation of its input — same elements with the
same multiplicities (and, the embedding being pure, the input list itself is
unchanged). -/
theorem sortData_perm {μ : Type} (data : List DatabaseObject) (meta : μ)
    (columns : List (SortableGridColumn μ)) (sortBy : String)
    (dir : SortDirection) :
    (sortData data meta columns sortBy dir).Perm data := by
  simp only [sortData]
  split
  · split
    · exact orderBy_perm _ _ _
    · split
      · exact orderBy_perm _ _ _
      · exact orderBy_perm _ _ _
  · exact orderBy_perm _ _ _

lemma jsSlice_length_le {β : Type} (l : List β) (a m : Nat) :
    (jsSlice l a (a + m)).length ≤ m := by
  simp only [jsSlice, List.length_drop, List.length_take]
  omega

lemma sortableGridRender_found {μ : Type} (data : List DatabaseObject)
    (columns : List (SortableGridColumn μ)) (keyProp : String)
    (pagerConfig : PagerConfig) (sortingConfig : SortingConfig) (meta : μ)
    (st : SortableGridState) (c : SortableGridColumn μ)
    (hfind : (visibleColumnsOf data columns meta).find?
      (fun column => column.id == st.sortBy) = some c) :
    sortableGridRender data columns keyProp pagerConfig sortingConfig meta st
      = { dataRows := some (convertObjectArrayToDataGrid
            (jsSlice
              (if sortingConfig.isSortingSuppressed then data
               else sortData data meta (visibleColumnsOf data columns meta)
                 st.sortBy st.sortDirection)
              ((pagerConfig.currentPageIndex.getD st.pageIndex) *
                maxItemsPerPageOf pagerConfig)
              (((pagerConfig.currentPageIndex.getD st.pageIndex) + 1) *
                maxItemsPerPageOf pagerConfig))
            (visibleColumnsOf data columns meta) keyProp)
          pagedData := some (jsSlice
            (if sortingConfig.isSortingSuppressed then data
             else sortData data meta (visibleColumnsOf data columns meta)
               st.sortBy st.sortDirection)
            ((pagerConfig.currentPageIndex.getD st.pageIndex) *
              maxItemsPerPageOf pagerConfig)
            (((pagerConfig.currentPageIndex.getD st.pageIndex) + 1) *
              maxItemsPerPageOf pagerConfig))
          nextSortBy := none } := by
  simp only [sortableGridRender]
  rw [hfind]

lemma sortableGridRender_not_found {μ : Type} (data : List DatabaseObject)
    (columns : List (SortableGridColumn μ)) (keyProp : String)
    (pagerConfig : PagerConfig) (sortingConfig : SortingConfig) (meta : μ)
    (st : SortableGridState)
    (hfind : (visibleColumnsOf data columns meta).find?
      (fun column => column.id == st.sortBy) = none) :
    sortableGridRender data columns keyProp pagerConfig sortingConfig meta st
      = { dataRows := none
          pagedData := none
          nextSortBy := (visibleColumnsOf data columns meta).head?.map
            (fun column => column.id) } := by
  simp only [sortableGridRender]
  rw [hfind]

/-- C4: whenever a render pass produces data rows, the page it renders is
exactly the sorted data (or the data unchanged when sorting is suppressed)
sliced from currentPageIndex*maxItemsPerPage to
(currentPageIndex+1)*maxItemsPerPage — hence at most maxItemsPerPage rows —
and sortData orders by the sorted column's sorter when present, else by the
lowercased value function, else by the raw sort-column field. -/
theorem sortableGrid_paged_rows {μ : Type} (data : List DatabaseObject)
    (columns : List (SortableGridColumn μ)) (keyProp : String)
    (pagerConfig : PagerConfig) (sortingConfig : SortingConfig) (meta : μ)
    (st : SortableGridState) (rows : List DatabaseObject)
    (hrows : (sortableGridRender data columns keyProp pagerConfig
      sortingConfig meta st).pagedData = some rows) :
    rows = jsSlice
        (if sortingConfig.isSortingSuppressed then data
         else sortData data meta (visibleColumnsOf data columns meta)
           st.sortBy st.sortDirection)
        ((pagerConfig.currentPageIndex.getD st.pageIndex) *
          maxItemsPerPageOf pagerConfig)
        (((pagerConfig.currentPageIndex.getD st.pageIndex) + 1) *
          maxItemsPerPageOf pagerConfig) ∧
    rows.length ≤ maxItemsPerPageOf pagerConfig ∧
    (sortableGridRender data columns keyProp pagerConfig sortingConfig meta
      st).dataRows = some (convertObjectArrayToDataGrid rows
        (visibleColumnsOf data columns meta) keyProp) ∧
    (∀ c : SortableGridColumn μ,
      (visibleColumnsOf data columns meta).find?
        (fun column => column.id == st.sortBy) = some c →
      (∀ srt : DatabaseObject → μ → SortKey, c.sorter = some srt →
        sortData data meta (visibleColumnsOf data columns meta) st.sortBy
            st.sortDirection
          = orderBy data (fun item => srt item meta) st.sortDirection) ∧
      (∀ v : DatabaseObject → String, c.sorter = none → c.value = some v →
        sortData data meta (visibleColumnsOf data columns meta) st.sortBy
            st.sortDirection
          = orderBy data (fun item => SortKey.str ((v item).toLower))
              st.sortDirection) ∧
      (c.sorter = none → c.value = none →
        sortData data meta (visibleColumnsOf data columns meta) st.sortBy
            st.sortDirection
          = orderBy data (fun item => (item st.sortBy).sortKey)
              st.sortDirection)) := by
  have hsel : ∀ c : SortableGridColumn μ,
      (visibleColumnsOf data columns meta).find?
        (fun column => column.id == st.sortBy) = some c →
      (∀ srt : DatabaseObject → μ → SortKey, c.sorter = some srt →
        sortData data meta (visibleColumnsOf data columns meta) st.sortBy
            st.sortDirection
          = orderBy data (fun item => srt item meta) st.sortDirection) ∧
      (∀ v : DatabaseObject → String, c.sorter = none → c.value = some v →
        sortData data meta (visibleColumnsOf data columns meta) st.sortBy
            st.sortDirection
          = orderBy data (fun item => SortKey.str ((v item).toLower))
              st.sortDirection) ∧
      (c.sorter = none → c.value = none →
        sortData data meta (visibleColumnsOf data columns meta) st.sortBy
            st.sortDirection
          = orderBy data (fun item => (item st.sortBy).sortKey)
              st.sortDirection) := by
    intro c hc
    refine ⟨?_, ?_, ?_⟩
    · intro srt hsrt
      simp only [sortData, hc, hsrt]
    · intro v hsrt hv
      simp only [sortData, hc, hsrt, hv]
    · intro hsrt hv
      simp only [sortData, hc, hsrt, hv]
  cases hfind : (visibleColumnsOf data columns meta).find?
      (fun column => column.id == st.sortBy) with
  | none =>
    rw [sortableGridRender_not_found data columns keyProp pagerConfig
      sortingConfig meta st hfind] at hrows
    exact absurd hrows (by simp)
  | some c =>
    rw [sortableGridRender_found data columns keyProp pagerConfig
      sortingConfig meta st c hfind] at hrows
    simp only [Option.some.injEq] at hrows
    subst hrows
    refine ⟨rfl, ?_, ?_, ?_⟩
    · rw [Nat.succ_mul]
      exact jsSlice_length_le _ _ _
    · rw [sortableGridRender_found data columns keyProp pagerConfig
        sortingConfig meta st c hfind]
    · intro c1 hc1
      cases hc1
      exact hsel c hfind

/-- Concrete database object used by the grid witnesses. -/
def witnessObj : DatabaseObject :=
  fun key => if key = "x" then .num 1 else .undefined

/-- Single-column configuration used by the grid witnesses. -/
def witnessColumns : List (SortableGridColumn Unit) :=
  [{ id := "x" }]

/-- Grid state used by the grid witnesses. -/
def witnessGridState : SortableGridState :=
  { sortBy := "x", sortDirection := .asc, pageIndex := 0 }

/-- C4 witness: a one-item, one-column grid with sorting suppressed renders
the page [witnessObj], which has at most maxItemsPerPage items. -/
theorem sortableGrid_paged_rows_witness :
    (sortableGridRender [witnessObj] witnessColumns "" {}
      { isSortingSuppressed := true } () witnessGridState).pagedData
      = some [witnessObj] ∧
    ([witnessObj] : List DatabaseObject).length ≤ maxItemsPerPageOf {} :=
  ⟨rfl,
   (sortableGrid_paged_rows [witnessObj] witnessColumns "" {}
     { isSortingSuppressed := true } () witnessGridState [witnessObj]
     rfl).2.1⟩

/-- C10: whenever a render pass of SortableGrid produces data rows, the
current sort column id belongs to some visible column; when the stored
sortBy matches no visible column the pass renders nothing and resets sortBy
to the first visible column's id. -/
theorem sortableGrid_sortBy_visible {μ : Type} (data : List DatabaseObject)
    (columns : List (SortableGridColumn μ)) (keyProp : String)
    (pagerConfig : PagerConfig) (sortingConfig : SortingConfig) (meta : μ)
    (st : SortableGridState) :
    (∀ rows : List DataGridRow,
      (sortableGridRender data columns keyProp pagerConfig sortingConfig
        meta st).dataRows = some rows →
      ∃ c ∈ visibleColumnsOf data columns meta, c.id = st.sortBy) ∧
    ((∀ c ∈ visibleColumnsOf data columns meta, c.id ≠ st.sortBy) →
      (sortableGridRender data columns keyProp pagerConfig sortingConfig
        meta st).dataRows = none ∧
      (sortableGridRender data columns keyProp pagerConfig sortingConfig
        meta st).pagedData = none ∧
      (∀ (c0 : SortableGridColumn μ) (rest : List (SortableGridColumn μ)),
        visibleColumnsOf data columns meta = c0 :: rest →
        (sortableGridRender data columns keyProp pagerConfig sortingConfig
          meta st).nextSortBy = some c0.id)) := by
  constructor
  · intro rows hrows
    cases hfind : (visibleColumnsOf data columns meta).find?
        (fun column => column.id == st.sortBy) with
    | none =>
      rw [sortableGridRender_not_found data columns keyProp pagerConfig
        sortingConfig meta st hfind] at hrows
      exact absurd hrows (by simp)
    | some c =>
      refine ⟨c, List.mem_of_find?_eq_some hfind, ?_⟩
      have := List.find?_some hfind
      simpa using this
  · intro hnone
    have hfind : (visibleColumnsOf data columns meta).find?
        (fun column => column.id == st.sortBy) = none := by
      rw [List.find?_eq_none]
      intro c hc
      simpa using hnone c hc
    rw [sortableGridRender_not_found data columns keyProp pagerConfig
      sortingConfig meta st hfind]
    refine ⟨rfl, rfl, ?_⟩
    intro c0 rest hv
    simp [hv]

/-- Column configuration used by the C10 witness: the second column is the
stored sort column but its hide() function hides it. -/
def witnessHiddenColumns : List (SortableGridColumn Unit) :=
  [{ id := "x" }, { id := "y", hide := some (fun _ _ => true) }]

/-- C10 witness: with the stored sort column hidden, the render pass
produces no rows and resets sortBy to the first visible column's id. -/
theorem sortableGrid_sortBy_visible_witness :
    (sortableGridRender [witnessObj] witnessHiddenColumns "" {} {} ()
      { sortBy := "y", sortDirection := .asc, pageIndex := 0 }).dataRows
      = none ∧
    (sortableGridRender [witnessObj] witnessHiddenColumns "" {} {} ()
      { sortBy := "y", sortDirection := .asc, pageIndex := 0 }).pagedData
      = none ∧
    (sortableGridRender [witnessObj] witnessHiddenColumns "" {} {} ()
      { sortBy := "y", sortDirection := .asc, pageIndex := 0 }).nextSortBy
      = some "x" := by
  have hv : visibleColumnsOf [witnessObj] witnessHiddenColumns ()
      = [{ id := "x" }] := rfl
  have h := (sortableGrid_sortBy_visible [witnessObj] witnessHiddenColumns
    "" {} {} () { sortBy := "y", sortDirection := .asc, pageIndex := 0 }).2
    (by
      intro c hc
      rw [hv, List.mem_singleton] at hc
      subst hc
      decide)
  exact ⟨h.1, h.2.1, h.2.2 { id := "x" } [] hv⟩

/-- The current authentication stage persisted in session storage
(`AuthStage` in session.tsx). -/
inductive AuthStage where
  | LOGIN
  | LOGOUT
  | NONE
deriving DecidableEq, Repr

/-- Session-properties record from the data provider; the login effect only
inspects its `status` property. -/
structure SessionPropertiesObject where
  status : String
deriving DecidableEq, Repr

/-- State of SessionContextProvider relevant to the login effect: the cached
session and session-properties objects, the data-provider URL, the persisted
auth stage, and the authentication context's transition path. -/
structure SessionProviderState where
  session : Option SessionObject
  sessionProperties : Option SessionPropertiesObject
  dataProviderUrl : String
  authStage : AuthStage
  authTransitionPath : String
deriving DecidableEq, Repr

/-- Auth0 state read through useAuth0. -/
structure Auth0State where
  isAuthenticated : Bool
  isLoading : Bool
deriving DecidableEq, Repr

/-- Environment of one firing of the login effect: the session object
getSession resolves to while signed out, the result of loginDataProvider
(`none` models null/undefined), the session object getSession resolves to
after the backend login, and the path currently shown in the browser
(`window.location.pathname + window.location.search`). -/
structure LoginEffectEnv where
  getSessionSignedOut : SessionObject
  loginDataProviderResult : Option SessionPropertiesObject
  getSessionSignedIn : SessionObject
  windowPath : String
deriving DecidableEq, Repr

/-- Observable outcome of one firing of the login effect: the provider state
afterwards, whether logoutAuthProvider was invoked towards /auth-error, and
the argument of router.push when the route was reloaded. -/
structure LoginEffectResult where
  state : SessionProviderState
  loggedOutToAuthError : Bool
  reloadedPath : Option String
deriving DecidableEq, Repr

/-- The login effect of SessionContextProvider (session.tsx lines 163-228).
It fires only when a transition path is recorded, the persisted stage is
LOGIN, the data-provider URL is known, and Auth0 reports the user
authenticated; it then resets the stage to NONE and runs the promise chain.
On a failed backend exchange the chain clears the transition path, logs back
out of Auth0 towards /auth-error, and the final `.then` still runs with a
null session.  On success it stores the session-properties response, stores
the freshly fetched signed-in session, clears the transition path, and
pushes the viewed route again only when the recorded transition path (read
from the stale render-time context value) equals the currently viewed
path. -/
def loginEffect (st : SessionProviderState) (auth : Auth0State)
    (env : LoginEffectEnv) : LoginEffectResult :=
  if st.authTransitionPath ≠ "" ∧ st.authStage = AuthStage.LOGIN ∧
      st.dataProviderUrl ≠ "" ∧ auth.isAuthenticated then
    let st1 := { st with authStage := AuthStage.NONE }
    match env.loginDataProviderResult with
    | none =>
      { state := { st1 with authTransitionPath := "", session := none }
        loggedOutToAuthError := true
        reloadedPath :=
          if st.authTransitionPath = env.windowPath then some env.windowPath
          else none }
    | some sessionPropertiesResponse =>
      if sessionPropertiesResponse.status = "error" then
        { state := { st1 with authTransitionPath := "", session := none }
          loggedOutToAuthError := true
          reloadedPath :=
            if st.authTransitionPath = env.windowPath then some env.windowPath
            else none }
      else
        { state :=
            { st1 with
              sessionProperties := some sessionPropertiesResponse
              session := some env.getSessionSignedIn
              authTransitionPath := "" }
          loggedOutToAuthError := false
          reloadedPath :=
            if st.authTransitionPath = env.windowPath then some env.windowPath
            else none }
  else
    { state := st, loggedOutToAuthError := false, reloadedPath := none }

/-- Provider state used by the C5 counterexample: a login transition was
recorded for /samples/ with stage LOGIN and a known data-provider URL. -/
def loginCounterexampleState : SessionProviderState :=
  { session := none
    sessionProperties := none
    dataProviderUrl := "http://igvfd"
    authStage := .LOGIN
    authTransitionPath := "/samples/" }

/-- Auth0 state used by the C5 counterexample and witness: authenticated. -/
def loginCounterexampleAuth : Auth0State :=
  { isAuthenticated := true, isLoading := false }

/-- Environment used by the C5 counterexample: the backend exchange succeeds
but the browser now shows /about/, not the recorded /samples/. -/
def loginCounterexampleEnv : LoginEffectEnv :=
  { getSessionSignedOut := { csrft := "t1" }
    loginDataProviderResult := some { status := "success" }
    getSessionSignedIn := { csrft := "t2" }
    windowPath := "/about/" }

/-- C5 counterexample: all the claim's preconditions hold and the backend
exchange succeeds — the stage is reset, the session and session-properties
are stored and the transition path cleared — yet no route reload happens,
because the recorded transition path differs from the viewed path. -/
theorem loginEffect_no_reload_counterexample :
    loginCounterexampleState.authTransitionPath ≠ "" ∧
    loginCounterexampleState.authStage = AuthStage.LOGIN ∧
    loginCounterexampleState.dataProviderUrl ≠ "" ∧
    loginCounterexampleAuth.isAuthenticated = true ∧
    loginCounterexampleEnv.loginDataProviderResult
      = some { status := "success" } ∧
    ({ status := "success" } : SessionPropertiesObject).status ≠ "error" ∧
    (loginEffect loginCounterexampleState loginCounterexampleAuth
      loginCounterexampleEnv).state.authStage = AuthStage.NONE ∧
    (loginEffect loginCounterexampleState loginCounterexampleAuth
      loginCounterexampleEnv).state.session = some { csrft := "t2" } ∧
    (loginEffect loginCounterexampleState loginCounterexampleAuth
      loginCounterexampleEnv).state.sessionProperties
      = some { status := "success" } ∧
    (loginEffect loginCounterexampleState loginCounterexampleAuth
      loginCounterexampleEnv).state.authTransitionPath = "" ∧
    (loginEffect loginCounterexampleState loginCounterexampleAuth
      loginCounterexampleEnv).reloadedPath = none := by
  decide

/-- C5 (amended): when the login effect fires with a recorded transition
path, stage LOGIN, a known data-provider URL and Auth0 authenticated, and
the backend exchange succeeds, the stage is reset to NONE, the session and
session-properties state are set to the backend's responses and the
transition path is cleared; the current route is reloaded exactly when the
recorded transition path equals the currently viewed path. -/
theorem loginEffect_success (st : SessionProviderState) (auth : Auth0State)
    (env : LoginEffectEnv) (props : SessionPropertiesObject)
    (h1 : st.authTransitionPath ≠ "") (h2 : st.authStage = AuthStage.LOGIN)
    (h3 : st.dataProviderUrl ≠ "") (h4 : auth.isAuthenticated = true)
    (h5 : env.loginDataProviderResult = some props)
    (h6 : props.status ≠ "error") :
    (loginEffect st auth env).state.authStage = AuthStage.NONE ∧
    (loginEffect st auth env).state.sessionProperties = some props ∧
    (loginEffect st auth env).state.session = some env.getSessionSignedIn ∧
    (loginEffect st auth env).state.authTransitionPath = "" ∧
    (loginEffect st auth env).loggedOutToAuthError = false ∧
    (loginEffect st auth env).reloadedPath
      = (if st.authTransitionPath = env.windowPath then some env.windowPath
         else none) := by
  have hcond : st.authTransitionPath ≠ "" ∧ st.authStage = AuthStage.LOGIN ∧
      st.dataProviderUrl ≠ "" ∧ auth.isAuthenticated := ⟨h1, h2, h3, by
        simp [h4]⟩
  simp only [loginEffect, if_pos hcond, h5]
  rw [if_neg h6]
  exact ⟨rfl, rfl, rfl, rfl, rfl, rfl⟩

/-- Environment used by the C5 witness: like the counterexample but the
browser still shows the recorded /samples/ path, so the route reloads. -/
def loginWitnessEnv : LoginEffectEnv :=
  { getSessionSignedOut := { csrft := "t1" }
    loginDataProviderResult := some { status := "success" }
    getSessionSignedIn := { csrft := "t2" }
    windowPath := "/samples/" }

/-- C5 witness: with the viewed path equal to the recorded transition path
and a successful exchange, the amended theorem yields the reload. -/
theorem loginEffect_success_witness :
    (loginEffect loginCounterexampleState loginCounterexampleAuth
      loginWitnessEnv).state.authStage = AuthStage.NONE ∧
    (loginEffect loginCounterexampleState loginCounterexampleAuth
      loginWitnessEnv).reloadedPath = some "/samples/" := by
  have h := loginEffect_success loginCounterexampleState
    loginCounterexampleAuth loginWitnessEnv { status := "success" }
    (by decide) (by decide) (by decide) (by decide) (by decide) (by decide)
  refine ⟨h.1, ?_⟩
  have h6 := h.2.2.2.2.2
  rw [h6]
  decide

end Igvf
